import Mathlib

/-!
Verification of the LLM Council backend (`backend/openrouter.py`,
`backend/main.py`) against its natural-language specification.

The Python source is shallowly embedded: each `async def` becomes a pure
Lean function over an explicit model of its environment (the network
outcome of each HTTP interaction, the outcomes of the opaque collaborator
calls).  Exceptions are modelled with `Except`, and Python `print`
diagnostics as an explicit log list.
-/

namespace LLMCouncil

/-! ## Model Gateway (`backend/openrouter.py`)

`query_model` wraps one HTTP call in `try/except`.  The exceptions its
`try` body can raise are modelled by `PyExn`; every one of them is a
subclass of Python `Exception` (httpx errors, json decode errors,
`KeyError`/`IndexError` from the duck-typed body access), which is what
the final `except Exception` clause matches on. -/

inductive PyExn where
  /-- `httpx.HTTPStatusError` raised by `response.raise_for_status()`;
  carries the response status code. -/
  | httpStatusError (status : Nat)
  /-- `httpx` timeout exception: the request exceeded its timeout. -/
  | timeoutException
  /-- connection-level failure (DNS, refused connection, ...). -/
  | connectError
  /-- `response.json()` failed: body is not valid JSON. -/
  | jsonDecodeError
  /-- `data['choices'][0]['message']` failed: body shape unexpected. -/
  | keyOrIndexError
deriving DecidableEq, Repr

/-- Which modelled exceptions are `httpx.HTTPStatusError` (matched by the
first `except` clause of `query_model`). -/
def PyExn.isHTTPStatusError : PyExn → Bool
  | .httpStatusError _ => true
  | _ => false

/-- Every modelled exception is a subclass of Python `Exception`, hence
matched by the second `except Exception` clause. -/
def PyExn.isExceptionSubclass : PyExn → Bool
  | .httpStatusError _ => true
  | .timeoutException => true
  | .connectError => true
  | .jsonDecodeError => true
  | .keyOrIndexError => true

/-- What one HTTP interaction inside the `try` block of `query_model`
does: either the whole of post / raise_for_status / json() / message
extraction succeeds with some parsed message fields, or some step raises. -/
inductive NetOutcome where
  | parsed (content : Option String) (reasoningDetails : Option String)
  | raises (e : PyExn)
deriving DecidableEq, Repr

/-- The value `query_model` builds on success:
`{'content': ..., 'reasoning_details': ...}`. -/
structure ModelResult where
  content : Option String
  reasoning_details : Option String
deriving DecidableEq, Repr

/-- The diagnostic `print` lines `query_model` can emit. -/
inductive LogMsg where
  | keyNotSet (model : String)
  | keyPlaceholder (model : String)
  | unauthorized401 (model : String)
  | httpError (model : String) (status : Nat)
  | genericError (model : String)
deriving DecidableEq, Repr

/-- One run of `query_model`: its termination (normal return of an
`Optional[dict]`, or a propagated exception), whether the HTTP request
was actually issued, and the diagnostics printed. -/
structure GatewayRun where
  result : Except PyExn (Option ModelResult)
  networkCalled : Bool
  logs : List LogMsg
deriving Repr

/-- The placeholder API key checked for at `openrouter.py:29`. -/
def placeholderKey : String := "sk-or-v1-your-api-key-here"

/-- Python truthiness of `OPENROUTER_API_KEY` (`os.getenv` result:
`None` or a string): `not key` holds iff the key is `None` or empty. -/
def keyFalsy : Option String → Bool
  | none => true
  | some s => s = ""

/-- The `except` clauses of `query_model` (`openrouter.py:60-71`):
an `httpx.HTTPStatusError` is logged (401 specially) and absorbed into a
`None` return; any other `Exception` is logged generically and absorbed;
anything else would propagate. -/
def handleExn (model : String) (e : PyExn) :
    Except PyExn (Option ModelResult) × List LogMsg :=
  if e.isHTTPStatusError then
    match e with
    | .httpStatusError status =>
        if status = 401 then (.ok none, [.unauthorized401 model])
        else (.ok none, [.httpError model status])
    | _ => (.ok none, [])
  else if e.isExceptionSubclass then
    (.ok none, [.genericError model])
  else
    (.error e, [])

/-- `query_model` (`openrouter.py:8-71`): validate the API key (two early
returns that never reach the network), then run the HTTP interaction and
absorb its exceptions.  `outcome` models what the network does for this
call. -/
def query_model (key : Option String) (model : String)
    (outcome : NetOutcome) : GatewayRun :=
  if keyFalsy key then
    ⟨.ok none, false, [.keyNotSet model]⟩
  else if key = some placeholderKey then
    ⟨.ok none, false, [.keyPlaceholder model]⟩
  else
    match outcome with
    | .parsed c r => ⟨.ok (some ⟨c, r⟩), true, []⟩
    | .raises e =>
        let h := handleExn model e
        ⟨h.1, true, h.2⟩

/-- `asyncio.gather` over coroutines none of which is cancelled:
collects the values in order; a raised exception propagates. -/
def gather (rs : List (Except PyExn α)) : Except PyExn (List α) :=
  match rs with
  | [] => .ok []
  | r :: rest => do
      let v ← r
      let vs ← gather rest
      return v :: vs

/-- Python `dict` update for one key (last write wins, insertion order of
first write kept). -/
def pyDictInsert (d : List (String × α)) (k : String) (v : α) :
    List (String × α) :=
  if d.any (fun p => p.1 = k) then
    d.map (fun p => if p.1 = k then (k, v) else p)
  else
    d ++ [(k, v)]

/-- Python dict comprehension over a list of key/value pairs. -/
def pyDictOfPairs (ps : List (String × α)) : List (String × α) :=
  ps.foldl (fun d p => pyDictInsert d p.1 p.2) []

/-- Python dict lookup. -/
def pyDictGet (d : List (String × α)) (k : String) : Option α :=
  match d with
  | [] => none
  | p :: rest => if p.1 = k then some p.2 else pyDictGet rest k

/-- `query_models_parallel` (`openrouter.py:74-97`): one `query_model`
task per model, `asyncio.gather`, then
`{model: response for model, response in zip(models, responses)}`.
`net` models the network outcome each model's own call runs into. -/
def query_models_parallel (key : Option String)
    (net : String → NetOutcome) (models : List String) :
    Except PyExn (List (String × Option ModelResult)) := do
  let responses ← gather (models.map fun m => (query_model key m (net m)).result)
  return pyDictOfPairs (models.zip responses)

/-- The value `query_model` returns to its caller (it never raises;
`query_model_result_eq` below establishes this against `query_model`). -/
def queryModelReturn (key : Option String) (model : String)
    (outcome : NetOutcome) : Option ModelResult :=
  if keyFalsy key then none
  else if key = some placeholderKey then none
  else
    match outcome with
    | .parsed c r => some ⟨c, r⟩
    | .raises _ => none

/-! ## Streaming deliberation endpoint (`backend/main.py:287-357`)

`main.py` imports the stage functions (`stage1_collect_responses`,
`stage2_collect_rankings`, `calculate_aggregate_rankings`,
`stage3_synthesize_final`, `generate_conversation_title`) from
`backend.council` and the persistence functions from `backend.storage`;
those two modules are callers-only visible here, so the generator is
embedded as a function of their outcomes: each collaborator call either
returns a value or raises (carrying the `str(e)` message the `except`
clause would stringify). -/

/-- One SSE event produced by `event_generator`, prior to JSON framing.
The payload types are the (opaque) result types of the council stage
functions. -/
inductive Event (S1 S2 L G S3 : Type) where
  | stage1_start
  | stage1_complete (data : S1)
  | stage2_start
  | stage2_complete (data : S2) (label_to_model : L) (aggregate_rankings : G)
  | stage3_start
  | stage3_complete (data : S3)
  | title_complete (title : String)
  | complete
  | error (message : String)

/-- Terminal events: `complete` and `error` (`main.py:344,348`). -/
def Event.isTerminal : Event S1 S2 L G S3 → Bool
  | .complete => true
  | .error _ => true
  | _ => false

/-- Outcomes of the council functions `main.py` imports from
`backend.council`, one field per imported function, with the argument
lists main.py passes at the call sites. -/
structure CouncilDeps (S1 S2 L G S3 : Type) where
  stage1_collect_responses : String → Except String S1
  stage2_collect_rankings : String → S1 → Except String (S2 × L)
  calculate_aggregate_rankings : S2 → L → Except String G
  stage3_synthesize_final : String → S1 → S2 → Except String S3
  generate_conversation_title : String → Except String String

/-- Outcomes of the persistence calls `main.py` makes inside the
generator (`backend.storage` is not under `src/` either). -/
structure StorageDeps (S1 S2 S3 : Type) where
  add_user_message : String → String → Except String Unit
  update_conversation_title : String → String → Except String Unit
  add_assistant_message : String → S1 → S2 → S3 → Except String Unit

/-- `event_generator` (`main.py:303-348`): the full event list one
deliberation yields.  The whole body sits in a `try`; the `except` clause
yields a single `error` event with the exception's message and the
generator ends.  The title task is created before stage 1 (when
`is_first_message`) and awaited after stage 3; its outcome is consulted
only at that await point, exactly as an `asyncio` task's exception is. -/
def event_generator (deps : CouncilDeps S1 S2 L G S3)
    (storage : StorageDeps S1 S2 S3)
    (conversation_id content : String) (is_first_message : Bool) :
    List (Event S1 S2 L G S3) :=
  match storage.add_user_message conversation_id content with
  | .error e => [.error e]
  | .ok _ =>
    .stage1_start ::
    match deps.stage1_collect_responses content with
    | .error e => [.error e]
    | .ok stage1_results =>
      .stage1_complete stage1_results ::
      .stage2_start ::
      match deps.stage2_collect_rankings content stage1_results with
      | .error e => [.error e]
      | .ok (stage2_results, label_to_model) =>
        match deps.calculate_aggregate_rankings stage2_results label_to_model with
        | .error e => [.error e]
        | .ok aggregate_rankings =>
          .stage2_complete stage2_results label_to_model aggregate_rankings ::
          .stage3_start ::
          match deps.stage3_synthesize_final content stage1_results stage2_results with
          | .error e => [.error e]
          | .ok stage3_result =>
            .stage3_complete stage3_result ::
            let finish : List (Event S1 S2 L G S3) :=
              match storage.add_assistant_message conversation_id
                  stage1_results stage2_results stage3_result with
              | .error e => [.error e]
              | .ok _ => [.complete]
            if is_first_message then
              match deps.generate_conversation_title content with
              | .error e => [.error e]
              | .ok title =>
                match storage.update_conversation_title conversation_id title with
                | .error e => [.error e]
                | .ok _ => .title_complete title :: finish
            else finish

/-! ## Operation order of the two message endpoints

For the temporal claims about title generation, the two handlers are
also projected onto the order in which they perform their awaited
operations on the success path. -/

/-- The operations the two message endpoints perform, in program order. -/
inductive Action where
  | get_conversation
  | add_user_message
  | await_generate_title
  | update_conversation_title
  | create_title_task
  | run_full_council
  | stage1_collect
  | stage2_collect
  | aggregate_rankings
  | stage3_synthesize
  | await_title_task
  | add_assistant_message
deriving DecidableEq, Repr

/-- Operation order of the non-streaming handler `send_message_v1`
(`main.py:242-284`) on its success path: on a first message the title is
generated with a plain `await` (`main.py:262`) before
`run_full_council` is even started. -/
def send_message_v1_trace (is_first_message : Bool) : List Action :=
  [.get_conversation, .add_user_message] ++
  (if is_first_message then
    [.await_generate_title, .update_conversation_title]
  else []) ++
  [.run_full_council, .add_assistant_message]

/-- Operation order of the streaming handler `send_message_stream_v1`
(`main.py:287-357`) on its success path: the title task is created
before stage 1 (`main.py:311`) and awaited after stage 3
(`main.py:331`), before the assistant message is persisted. -/
def send_message_stream_trace (is_first_message : Bool) : List Action :=
  [.get_conversation, .add_user_message] ++
  (if is_first_message then [.create_title_task] else []) ++
  [.stage1_collect, .stage2_collect, .aggregate_rankings, .stage3_synthesize] ++
  (if is_first_message then [.await_title_task, .update_conversation_title] else []) ++
  [.add_assistant_message]

/-! ## Conversation endpoints and their legacy aliases
(`backend/main.py:218-391`)

`backend.storage` is not under `src/`, so persistence is an oracle: a
`Storage` value gives the outcome of each of its read operations, and
mutations are recorded as an effect list in the handler's result. -/

structure ConversationMetadata where
  id : String
  created_at : String
  title : String
  message_count : Nat
deriving DecidableEq, Repr

structure Conversation where
  id : String
  created_at : String
  title : String
  messages : List String
deriving DecidableEq, Repr

/-- Oracle for the read operations of `backend.storage`. -/
structure Storage where
  list_conversations : List ConversationMetadata
  create_conversation : String → Conversation
  get_conversation : String → Option Conversation

/-- A raised `fastapi.HTTPException`. -/
structure HTTPError where
  status_code : Nat
  detail : String
deriving DecidableEq, Repr

/-- The storage mutations a message handler performs, recorded in order. -/
inductive StorageEffect (S1 S2 S3 : Type) where
  | added_user_message (conversation_id content : String)
  | set_title (conversation_id title : String)
  | added_assistant_message (conversation_id : String)
      (stage1 : S1) (stage2 : S2) (stage3 : S3)

/-- `list_conversations_v1` (`main.py:218-221`). -/
def list_conversations_v1 (st : Storage) : List ConversationMetadata :=
  st.list_conversations

/-- `create_conversation_v1` (`main.py:224-229`); the fresh
`uuid.uuid4()` string is passed in explicitly. -/
def create_conversation_v1 (st : Storage) (new_uuid : String) : Conversation :=
  st.create_conversation new_uuid

/-- `get_conversation_v1` (`main.py:232-238`). -/
def get_conversation_v1 (st : Storage) (conversation_id : String) :
    Except HTTPError Conversation :=
  match st.get_conversation conversation_id with
  | none => .error ⟨404, "Conversation not found"⟩
  | some conversation => .ok conversation

/-- `send_message_v1` (`main.py:241-284`): 404 check, first-message
check, append user message, blocking title generation on a first
message, `run_full_council`, append assistant message, and the
4-field response.  `run_full_council` and `generate_conversation_title`
(from the absent `backend.council`) are oracles. -/
def send_message_v1 (S1 S2 S3 M : Type) (st : Storage)
    (generate_conversation_title : String → String)
    (run_full_council : String → S1 × S2 × S3 × M)
    (conversation_id content : String) :
    Except HTTPError ((S1 × S2 × S3 × M) × List (StorageEffect S1 S2 S3)) :=
  match st.get_conversation conversation_id with
  | none => .error ⟨404, "Conversation not found"⟩
  | some conversation =>
    let is_first_message := conversation.messages.length = 0
    let effects0 := [StorageEffect.added_user_message conversation_id content]
    let effects1 := if is_first_message then
        effects0 ++ [StorageEffect.set_title conversation_id
          (generate_conversation_title content)]
      else effects0
    let r := run_full_council content
    .ok (r, effects1 ++ [StorageEffect.added_assistant_message conversation_id
      r.1 r.2.1 r.2.2.1])

/-- `send_message_stream_v1` (`main.py:287-357`): 404 check,
first-message check, then a `StreamingResponse` wrapping
`event_generator`; its observable result is the event list. -/
def send_message_stream_v1 (S1 S2 L G S3 : Type)
    (deps : CouncilDeps S1 S2 L G S3) (storage : StorageDeps S1 S2 S3)
    (st : Storage) (conversation_id content : String) :
    Except HTTPError (List (Event S1 S2 L G S3)) :=
  match st.get_conversation conversation_id with
  | none => .error ⟨404, "Conversation not found"⟩
  | some conversation =>
    .ok (event_generator deps storage conversation_id content
      (conversation.messages.length = 0))

/-- Legacy alias `list_conversations` (`main.py:364-367`): delegates to
`list_conversations_v1`. -/
def list_conversations (st : Storage) : List ConversationMetadata :=
  list_conversations_v1 st

/-- Legacy alias `create_conversation` (`main.py:370-373`). -/
def create_conversation (st : Storage) (new_uuid : String) : Conversation :=
  create_conversation_v1 st new_uuid

/-- Legacy alias `get_conversation` (`main.py:376-379`). -/
def get_conversation (st : Storage) (conversation_id : String) :
    Except HTTPError Conversation :=
  get_conversation_v1 st conversation_id

/-- Legacy alias `send_message` (`main.py:382-385`). -/
def send_message (S1 S2 S3 M : Type) (st : Storage)
    (generate_conversation_title : String → String)
    (run_full_council : String → S1 × S2 × S3 × M)
    (conversation_id content : String) :
    Except HTTPError ((S1 × S2 × S3 × M) × List (StorageEffect S1 S2 S3)) :=
  send_message_v1 S1 S2 S3 M st generate_conversation_title run_full_council
    conversation_id content

/-- Legacy alias `send_message_stream` (`main.py:388-391`). -/
def send_message_stream (S1 S2 L G S3 : Type)
    (deps : CouncilDeps S1 S2 L G S3) (storage : StorageDeps S1 S2 S3)
    (st : Storage) (conversation_id content : String) :
    Except HTTPError (List (Event S1 S2 L G S3)) :=
  send_message_stream_v1 S1 S2 L G S3 deps storage st conversation_id content

/-! ## Rank aggregation

Modelled from the spec: `calculate_aggregate_rankings` lives in
`backend/council.py`, which is imported by `backend/main.py` but absent
from `src/`; the definitions below follow §4.4 step 3 of the spec. -/

/-- An anonymizing label, e.g. "Response A". -/
abbrev Label := String

/-- Modelled from the spec: one council model's stage-2 output after
parsing — an ordered sequence of labels, best first; the list may be
partial (fewer labels than exist); `none` when entirely unparseable. -/
abbrev RankingSubmission := Option (List Label)

/-- First-match lookup in the label-to-model mapping. -/
def lookupLabel (label_to_model : List (Label × String)) (lab : Label) :
    Option String :=
  match label_to_model with
  | [] => none
  | p :: rest => if p.1 = lab then some p.2 else lookupLabel rest lab

/-- Modelled from the spec: the points one submission contributes to
model `m` — with `N` ranked items, the label at 0-based position `i` is
worth `N − i` points for the model it maps to; labels the submission
does not contain contribute nothing; an unparseable submission
contributes zero. -/
def submissionPoints (label_to_model : List (Label × String))
    (sub : RankingSubmission) (m : String) : Nat :=
  match sub with
  | none => 0
  | some labels =>
      ((labels.zip (List.range labels.length)).map
        (fun p => if lookupLabel label_to_model p.1 = some m then
            labels.length - p.2
          else 0)).sum

/-- Modelled from the spec: total score of model `m` across all
submissions. -/
def totalScore (label_to_model : List (Label × String))
    (subs : List RankingSubmission) (m : String) : Nat :=
  (subs.map (fun sub => submissionPoints label_to_model sub m)).sum

/-- One entry of the aggregate ranking. -/
structure AggregateEntry where
  model : String
  score : Nat
deriving DecidableEq, Repr

/-- Modelled from the spec: sum points per model across all submissions,
then sort descending by score, ties broken by model identifier lexical
order for a deterministic total order. -/
def calculate_aggregate_rankings (subs : List RankingSubmission)
    (label_to_model : List (Label × String)) : List AggregateEntry :=
  let models := label_to_model.map Prod.snd
  let scored := models.map
    (fun m => AggregateEntry.mk m (totalScore label_to_model subs m))
  scored.mergeSort (fun a b =>
    b.score < a.score || (a.score = b.score && a.model ≤ b.model))

/-! ## Gateway lemmas -/

/-- Every modelled exception is absorbed by the `except` clauses into a
`None` return. -/
theorem handleExn_fst (model : String) (e : PyExn) :
    (handleExn model e).1 = Except.ok none := by
  cases e <;>
    simp [handleExn, PyExn.isHTTPStatusError, PyExn.isExceptionSubclass] <;>
    split <;> rfl

/-- `query_model` terminates normally with the value `queryModelReturn`
computes. -/
theorem query_model_result_eq (key : Option String) (model : String)
    (outcome : NetOutcome) :
    (query_model key model outcome).result =
      Except.ok (queryModelReturn key model outcome) := by
  unfold query_model queryModelReturn
  split
  · rfl
  · split
    · rfl
    · cases outcome with
      | parsed c r => rfl
      | raises e => simpa using handleExn_fst model e

/-- `asyncio.gather` over coroutines that all return normally collects
their values in order. -/
theorem gather_map_ok (f : α → β) (l : List α) :
    gather (l.map fun a => Except.ok (f a)) = Except.ok (l.map f) := by
  induction l with
  | nil => rfl
  | cons a l ih =>
      simp only [List.map_cons, gather, ih]
      rfl

/-- Inserting a fresh key appends. -/
theorem pyDictInsert_fresh (d : List (String × α)) (k : String) (v : α)
    (h : ∀ q ∈ d, q.1 ≠ k) : pyDictInsert d k v = d ++ [(k, v)] := by
  have hany : d.any (fun p => p.1 = k) = false := by
    rw [List.any_eq_false]
    intro q hq
    simp [h q hq]
  simp [pyDictInsert, hany]

/-- Building a dict from pairs with pairwise-distinct keys, starting from
an accumulator whose keys are disjoint from them, appends them in order. -/
theorem pyDictOfPairs_aux (ps : List (String × α)) (acc : List (String × α))
    (hk : (ps.map Prod.fst).Nodup)
    (hdisj : ∀ p ∈ ps, ∀ q ∈ acc, q.1 ≠ p.1) :
    ps.foldl (fun d p => pyDictInsert d p.1 p.2) acc = acc ++ ps := by
  induction ps generalizing acc with
  | nil => simp
  | cons p ps ih =>
      rw [List.foldl_cons,
        pyDictInsert_fresh acc p.1 p.2 (fun q hq => hdisj p (by simp) q hq)]
      have hk0 : (p.1 :: ps.map Prod.fst).Nodup := by
        rw [List.map_cons] at hk
        exact hk
      have hk' : (ps.map Prod.fst).Nodup := hk0.of_cons
      have hhead : ∀ r ∈ ps, p.1 ≠ r.1 := by
        intro r hr hcontra
        apply (List.nodup_cons.mp hk0).1
        rw [hcontra]
        exact List.mem_map_of_mem Prod.fst hr
      rw [ih (acc ++ [(p.1, p.2)]) hk' ?hdisj]
      · simp
      case hdisj =>
        intro r hr q hq
        rcases List.mem_append.mp hq with hq | hq
        · exact hdisj r (by simp [hr]) q hq
        · simp only [List.mem_singleton] at hq
          subst hq
          exact hhead r hr

/-- A dict built from pairs with distinct keys is those pairs. -/
theorem pyDictOfPairs_nodup (ps : List (String × α))
    (hk : (ps.map Prod.fst).Nodup) : pyDictOfPairs ps = ps := by
  simpa using pyDictOfPairs_aux ps [] hk (by simp)

/-- Looking a member key up in a dict keyed by a function of the member. -/
theorem pyDictGet_map (l : List String) (f : String → α) (m : String)
    (hm : m ∈ l) :
    pyDictGet (l.map fun x => (x, f x)) m = some (f m) := by
  induction l with
  | nil => cases hm
  | cons a l ih =>
      by_cases h : a = m
      · subst h
        simp [pyDictGet]
      · have hm' : m ∈ l := by
          rcases List.mem_cons.mp hm with h' | h'
          · exact absurd h'.symm h
          · exact h'
        simpa [pyDictGet, h] using ih hm'

/-- Zipping a list with its image under `f`. -/
theorem zip_self_map (l : List String) (f : String → α) :
    l.zip (l.map f) = l.map fun m => (m, f m) := by
  induction l with
  | nil => rfl
  | cons a l ih => simp [ih]

/-- Closed form of the fan-out on pairwise-distinct models: it returns
normally with the dict mapping each model to its own call's value. -/
theorem query_models_parallel_eq (key : Option String)
    (net : String → NetOutcome) (models : List String)
    (hnd : models.Nodup) :
    query_models_parallel key net models =
      Except.ok (models.map fun m => (m, queryModelReturn key m (net m))) := by
  unfold query_models_parallel
  have h1 : (models.map fun m => (query_model key m (net m)).result)
      = models.map fun m => Except.ok (queryModelReturn key m (net m)) := by
    exact List.map_congr_left fun m _ => query_model_result_eq key m (net m)
  rw [h1, gather_map_ok (fun m => queryModelReturn key m (net m)) models]
  show Except.ok (pyDictOfPairs _) = _
  rw [zip_self_map, pyDictOfPairs_nodup]
  have hmap : ((models.map fun m =>
      (m, queryModelReturn key m (net m))).map Prod.fst) = models := by
    rw [List.map_map]
    rw [show (Prod.fst ∘ fun m : String =>
      (m, queryModelReturn key m (net m))) = id from rfl]
    exact List.map_id models
  rw [hmap]
  exact hnd

/-! ## Claims about the Model Gateway and the fan-out -/

/-- C1: for every non-empty list of distinct model identifiers and every
message environment, `query_models_parallel` returns normally with a
mapping containing exactly one entry per model, each model mapped to the
value its own gateway call produced (`queryModelReturn`), regardless of
how many individual calls fail. -/
theorem fanout_completeness (key : Option String) (net : String → NetOutcome)
    (models : List String) (hne : models ≠ []) (hnd : models.Nodup) :
    ∃ d, query_models_parallel key net models = Except.ok d ∧
      d.map Prod.fst = models ∧
      d.length = models.length ∧
      ∀ m ∈ models, pyDictGet d m = some (queryModelReturn key m (net m)) := by
  refine ⟨models.map fun m => (m, queryModelReturn key m (net m)),
    query_models_parallel_eq key net models hnd, ?_, ?_, ?_⟩
  · rw [List.map_map]
    rw [show (Prod.fst ∘ fun m : String =>
      (m, queryModelReturn key m (net m))) = id from rfl]
    exact List.map_id models
  · simp
  · intro m hm
    exact pyDictGet_map models _ m hm

/-- Witness for C1 at a concrete council of two models, the first call
failing with a timeout and the second succeeding. -/
theorem fanout_completeness_witness :
    (["openai/gpt-5.1", "x-ai/grok-4"] : List String) ≠ [] ∧
    (["openai/gpt-5.1", "x-ai/grok-4"] : List String).Nodup ∧
    ∃ d, query_models_parallel (some "sk-or-v1-k")
        (fun m => if m = "openai/gpt-5.1" then
            NetOutcome.raises PyExn.timeoutException
          else NetOutcome.parsed (some "hello") none)
        ["openai/gpt-5.1", "x-ai/grok-4"] = Except.ok d ∧
      d.map Prod.fst = ["openai/gpt-5.1", "x-ai/grok-4"] ∧
      d.length = 2 ∧
      ∀ m ∈ (["openai/gpt-5.1", "x-ai/grok-4"] : List String),
        pyDictGet d m = some (queryModelReturn (some "sk-or-v1-k") m
          (if m = "openai/gpt-5.1" then
            NetOutcome.raises PyExn.timeoutException
          else NetOutcome.parsed (some "hello") none)) :=
  ⟨by decide, by decide,
    fanout_completeness (some "sk-or-v1-k") _ _ (by decide) (by decide)⟩

/-- C2: `query_model` always returns a value to its caller and never
propagates an exception, whatever the key and whatever the network does
(HTTP error status, timeout, connection failure, malformed body). -/
theorem query_model_never_propagates (key : Option String) (model : String)
    (outcome : NetOutcome) :
    ∃ v : Option ModelResult,
      (query_model key model outcome).result = Except.ok v :=
  ⟨queryModelReturn key model outcome, query_model_result_eq key model outcome⟩

/-- C3 counterexample: with a valid key, an HTTP 401 authentication
failure and a timeout both make `query_model` return the bare `None` —
the value returned to the caller carries no error classification, so an
authentication failure is not distinguishable from a generic failure in
it. -/
theorem gateway_error_kind_counterexample :
    (query_model (some "sk-or-v1-k") "openai/gpt-5.1"
        (NetOutcome.raises (PyExn.httpStatusError 401))).result =
      Except.ok none ∧
    (query_model (some "sk-or-v1-k") "openai/gpt-5.1"
        (NetOutcome.raises PyExn.timeoutException)).result =
      Except.ok none := by
  constructor <;> rfl

/-- C3 amended: whenever a Model Gateway call fails, the value returned
to the caller is the bare `None` (no error kind); the failure class is
reflected only in the diagnostic log, where a 401 produces a dedicated
unauthorized message distinct from the generic error message. -/
theorem gateway_failure_logged_not_returned (key : Option String)
    (model : String) (e : PyExn)
    (hk1 : keyFalsy key = false) (hk2 : key ≠ some placeholderKey) :
    (query_model key model (NetOutcome.raises e)).result = Except.ok none ∧
    (e = PyExn.httpStatusError 401 →
      (query_model key model (NetOutcome.raises e)).logs =
        [LogMsg.unauthorized401 model]) ∧
    (e = PyExn.timeoutException →
      (query_model key model (NetOutcome.raises e)).logs =
        [LogMsg.genericError model]) ∧
    LogMsg.unauthorized401 model ≠ LogMsg.genericError model := by
  have hrun : query_model key model (NetOutcome.raises e) =
      ⟨(handleExn model e).1, true, (handleExn model e).2⟩ := by
    unfold query_model
    rw [if_neg (by simp [hk1]), if_neg hk2]
  refine ⟨by rw [hrun]; exact handleExn_fst model e, ?_, ?_, by simp⟩
  · intro he
    subst he
    rw [hrun]
    rfl
  · intro he
    subst he
    rw [hrun]
    rfl

/-- Witness for the amended C3 at a concrete valid key and a 401. -/
theorem gateway_failure_logged_not_returned_witness :
    keyFalsy (some "sk-or-v1-k") = false ∧
    some "sk-or-v1-k" ≠ some placeholderKey ∧
    ((query_model (some "sk-or-v1-k") "openai/gpt-5.1"
        (NetOutcome.raises (PyExn.httpStatusError 401))).result =
          Except.ok none ∧
      (PyExn.httpStatusError 401 = PyExn.httpStatusError 401 →
        (query_model (some "sk-or-v1-k") "openai/gpt-5.1"
          (NetOutcome.raises (PyExn.httpStatusError 401))).logs =
            [LogMsg.unauthorized401 "openai/gpt-5.1"]) ∧
      (PyExn.httpStatusError 401 = PyExn.timeoutException →
        (query_model (some "sk-or-v1-k") "openai/gpt-5.1"
          (NetOutcome.raises (PyExn.httpStatusError 401))).logs =
            [LogMsg.genericError "openai/gpt-5.1"]) ∧
      LogMsg.unauthorized401 "openai/gpt-5.1" ≠
        LogMsg.genericError "openai/gpt-5.1") :=
  ⟨by decide, by decide,
    gateway_failure_logged_not_returned (some "sk-or-v1-k") "openai/gpt-5.1"
      (PyExn.httpStatusError 401) (by decide) (by decide)⟩

/-- C4: the fan-out entry of a model depends only on that model's own
gateway outcome — changing every other model's outcome (in particular
making them fail) leaves the entry in place, so one failure never
prevents the successful responses of the others from appearing. -/
theorem fanout_isolation (key : Option String)
    (net net' : String → NetOutcome) (models : List String) (m : String)
    (hm : m ∈ models) (hnd : models.Nodup) (hagree : net m = net' m) :
    ∃ d d', query_models_parallel key net models = Except.ok d ∧
      query_models_parallel key net' models = Except.ok d' ∧
      pyDictGet d m = some (queryModelReturn key m (net m)) ∧
      pyDictGet d' m = some (queryModelReturn key m (net m)) := by
  refine ⟨_, _, query_models_parallel_eq key net models hnd,
    query_models_parallel_eq key net' models hnd, pyDictGet_map models _ m hm, ?_⟩
  rw [pyDictGet_map models _ m hm, hagree]

/-- Witness for C4: a surviving successful model next to one that fails,
compared against a run where the other model succeeds instead. -/
theorem fanout_isolation_witness :
    ("x-ai/grok-4" ∈ (["openai/gpt-5.1", "x-ai/grok-4"] : List String)) ∧
    (["openai/gpt-5.1", "x-ai/grok-4"] : List String).Nodup ∧
    ∃ d d', query_models_parallel (some "sk-or-v1-k")
        (fun m => if m = "openai/gpt-5.1" then
            NetOutcome.raises PyExn.connectError
          else NetOutcome.parsed (some "hello") none)
        ["openai/gpt-5.1", "x-ai/grok-4"] = Except.ok d ∧
      query_models_parallel (some "sk-or-v1-k")
        (fun _ => NetOutcome.parsed (some "hello") none)
        ["openai/gpt-5.1", "x-ai/grok-4"] = Except.ok d' ∧
      pyDictGet d "x-ai/grok-4" =
        some (queryModelReturn (some "sk-or-v1-k") "x-ai/grok-4"
          (if ("x-ai/grok-4" : String) = "openai/gpt-5.1" then
            NetOutcome.raises PyExn.connectError
          else NetOutcome.parsed (some "hello") none)) ∧
      pyDictGet d' "x-ai/grok-4" =
        some (queryModelReturn (some "sk-or-v1-k") "x-ai/grok-4"
          (if ("x-ai/grok-4" : String) = "openai/gpt-5.1" then
            NetOutcome.raises PyExn.connectError
          else NetOutcome.parsed (some "hello") none)) :=
  ⟨by decide, by decide,
    fanout_isolation (some "sk-or-v1-k") _ _ _ "x-ai/grok-4"
      (by decide) (by decide) (by decide)⟩

/-- C10: when the configured key is unset/empty or still equals the
placeholder `sk-or-v1-your-api-key-here`, `query_model` returns the
failure value `None` immediately and the HTTP request is never issued. -/
theorem invalid_key_no_network (key : Option String) (model : String)
    (outcome : NetOutcome)
    (h : keyFalsy key = true ∨ key = some placeholderKey) :
    (query_model key model outcome).result = Except.ok none ∧
    (query_model key model outcome).networkCalled = false := by
  unfold query_model
  rcases h with h | h
  · rw [if_pos (by simp [h])]
    exact ⟨rfl, rfl⟩
  · by_cases hf : keyFalsy key
    · rw [if_pos (by simp [hf])]
      exact ⟨rfl, rfl⟩
    · rw [if_neg (by simp [hf]), if_pos h]
      exact ⟨rfl, rfl⟩

/-- Witness for C10 at the placeholder key. -/
theorem invalid_key_no_network_witness :
    (keyFalsy (some placeholderKey) = true ∨
      (some placeholderKey : Option String) = some placeholderKey) ∧
    (query_model (some placeholderKey) "x-ai/grok-4"
        (NetOutcome.parsed (some "hello") none)).result = Except.ok none ∧
    (query_model (some placeholderKey) "x-ai/grok-4"
        (NetOutcome.parsed (some "hello") none)).networkCalled = false :=
  ⟨Or.inr rfl,
    invalid_key_no_network (some placeholderKey) "x-ai/grok-4"
      (NetOutcome.parsed (some "hello") none) (Or.inr rfl)⟩

/-! ## Claims about the streaming pipeline -/

/-- C5: every event sequence `event_generator` yields ends with exactly
one terminal event — `complete`, or `error` carrying the failing step's
message — no event follows it, and every stage event published before a
failure stays in the sequence ahead of the terminal error event. -/
theorem stream_single_terminal (S1 S2 L G S3 : Type)
    (deps : CouncilDeps S1 S2 L G S3) (storage : StorageDeps S1 S2 S3)
    (conversation_id content : String) (is_first_message : Bool) :
    ∃ p e,
      event_generator deps storage conversation_id content is_first_message
        = p ++ [e] ∧
      (e = Event.complete ∨ ∃ msg, e = Event.error msg) ∧
      ∀ x ∈ p, x.isTerminal = false := by
  unfold event_generator
  cases storage.add_user_message conversation_id content with
  | error e => exact ⟨[], .error e, rfl, Or.inr ⟨e, rfl⟩, by simp⟩
  | ok u =>
    dsimp only
    cases deps.stage1_collect_responses content with
    | error e =>
        exact ⟨[.stage1_start], .error e, rfl, Or.inr ⟨e, rfl⟩,
          by simp [Event.isTerminal]⟩
    | ok s1 =>
      dsimp only
      cases deps.stage2_collect_rankings content s1 with
      | error e =>
          exact ⟨[.stage1_start, .stage1_complete s1, .stage2_start],
            .error e, rfl, Or.inr ⟨e, rfl⟩, by simp [Event.isTerminal]⟩
      | ok pr =>
        obtain ⟨s2, lbl⟩ := pr
        dsimp only
        cases deps.calculate_aggregate_rankings s2 lbl with
        | error e =>
            exact ⟨[.stage1_start, .stage1_complete s1, .stage2_start],
              .error e, rfl, Or.inr ⟨e, rfl⟩, by simp [Event.isTerminal]⟩
        | ok agg =>
          dsimp only
          cases deps.stage3_synthesize_final content s1 s2 with
          | error e =>
              exact ⟨[.stage1_start, .stage1_complete s1, .stage2_start,
                .stage2_complete s2 lbl agg, .stage3_start], .error e, rfl,
                Or.inr ⟨e, rfl⟩, by simp [Event.isTerminal]⟩
          | ok s3 =>
            dsimp only
            cases is_first_message with
            | false =>
              cases storage.add_assistant_message conversation_id s1 s2 s3 with
              | error e =>
                  exact ⟨[.stage1_start, .stage1_complete s1, .stage2_start,
                    .stage2_complete s2 lbl agg, .stage3_start,
                    .stage3_complete s3], .error e, rfl, Or.inr ⟨e, rfl⟩,
                    by simp [Event.isTerminal]⟩
              | ok v =>
                  exact ⟨[.stage1_start, .stage1_complete s1, .stage2_start,
                    .stage2_complete s2 lbl agg, .stage3_start,
                    .stage3_complete s3], .complete, rfl, Or.inl rfl,
                    by simp [Event.isTerminal]⟩
            | true =>
              cases deps.generate_conversation_title content with
              | error e =>
                  exact ⟨[.stage1_start, .stage1_complete s1, .stage2_start,
                    .stage2_complete s2 lbl agg, .stage3_start,
                    .stage3_complete s3], .error e, rfl, Or.inr ⟨e, rfl⟩,
                    by simp [Event.isTerminal]⟩
              | ok title =>
                dsimp only
                cases storage.update_conversation_title conversation_id title with
                | error e =>
                    exact ⟨[.stage1_start, .stage1_complete s1, .stage2_start,
                      .stage2_complete s2 lbl agg, .stage3_start,
                      .stage3_complete s3], .error e, rfl, Or.inr ⟨e, rfl⟩,
                      by simp [Event.isTerminal]⟩
                | ok v =>
                  dsimp only
                  cases storage.add_assistant_message conversation_id s1 s2 s3 with
                  | error e =>
                      exact ⟨[.stage1_start, .stage1_complete s1, .stage2_start,
                        .stage2_complete s2 lbl agg, .stage3_start,
                        .stage3_complete s3, .title_complete title], .error e,
                        rfl, Or.inr ⟨e, rfl⟩, by simp [Event.isTerminal]⟩
                  | ok w =>
                      exact ⟨[.stage1_start, .stage1_complete s1, .stage2_start,
                        .stage2_complete s2 lbl agg, .stage3_start,
                        .stage3_complete s3, .title_complete title], .complete,
                        rfl, Or.inl rfl, by simp [Event.isTerminal]⟩

/-- C6: when every collaborator call succeeds, the event sequence is
exactly stage1_start, stage1_complete, stage2_start, stage2_complete,
stage3_start, stage3_complete (then the title event on a first message)
and the terminal complete — stages strictly ordered and non-overlapping;
the hypotheses exhibit that stage 2 is invoked on the fully resolved
stage-1 bundle `s1` and stage 3 on the resolved `s1` and `s2`. -/
theorem stage_sequencing (S1 S2 L G S3 : Type)
    (deps : CouncilDeps S1 S2 L G S3) (storage : StorageDeps S1 S2 S3)
    (conversation_id content : String) (is_first_message : Bool)
    (s1 : S1) (s2 : S2) (lbl : L) (agg : G) (s3 : S3) (title : String)
    (hu : storage.add_user_message conversation_id content = .ok ())
    (h1 : deps.stage1_collect_responses content = .ok s1)
    (h2 : deps.stage2_collect_rankings content s1 = .ok (s2, lbl))
    (hagg : deps.calculate_aggregate_rankings s2 lbl = .ok agg)
    (h3 : deps.stage3_synthesize_final content s1 s2 = .ok s3)
    (ht : deps.generate_conversation_title content = .ok title)
    (hut : storage.update_conversation_title conversation_id title = .ok ())
    (ha : storage.add_assistant_message conversation_id s1 s2 s3 = .ok ()) :
    event_generator deps storage conversation_id content is_first_message =
      [Event.stage1_start, Event.stage1_complete s1, Event.stage2_start,
        Event.stage2_complete s2 lbl agg, Event.stage3_start,
        Event.stage3_complete s3] ++
      (if is_first_message then [Event.title_complete title] else []) ++
      [Event.complete] := by
  unfold event_generator
  rw [hu]
  dsimp only
  rw [h1]
  dsimp only
  rw [h2]
  dsimp only
  rw [hagg]
  dsimp only
  rw [h3]
  dsimp only
  cases is_first_message with
  | false => simp [ha]
  | true => simp [ht, hut, ha]

/-- Witness for C6 at a concrete all-successful deliberation. -/
theorem stage_sequencing_witness :
    event_generator
      (⟨fun _ => .ok 1, fun _ _ => .ok (2, 3), fun _ _ => .ok 4,
        fun _ _ _ => .ok 5, fun _ => .ok "First question"⟩ :
          CouncilDeps Nat Nat Nat Nat Nat)
      (⟨fun _ _ => .ok (), fun _ _ => .ok (), fun _ _ _ _ => .ok ()⟩ :
          StorageDeps Nat Nat Nat)
      "conv-1" "hello council" true =
      [Event.stage1_start, Event.stage1_complete 1, Event.stage2_start,
        Event.stage2_complete 2 3 4, Event.stage3_start,
        Event.stage3_complete 5] ++
      (if true then [Event.title_complete "First question"] else []) ++
      [Event.complete] :=
  stage_sequencing Nat Nat Nat Nat Nat _ _ "conv-1" "hello council" true
    1 2 3 4 5 "First question" rfl rfl rfl rfl rfl rfl rfl rfl

/-- C7 counterexample: in the non-streaming handler `send_message_v1`,
on a first message the title generation is awaited to completion before
`run_full_council` (stages 1–3) is even started — it blocks the stages
instead of running concurrently and being awaited after stage 3. -/
theorem title_concurrency_counterexample :
    (send_message_v1_trace true).indexOf Action.await_generate_title <
      (send_message_v1_trace true).indexOf Action.run_full_council := by
  decide

/-- C7 amended: on the first message, only the streaming endpoint runs
title generation concurrently — the task is created before stage 1 and
awaited after stage 3 completes, before the assistant message is
persisted; the non-streaming endpoint instead awaits title generation
before the council stages begin. -/
theorem title_concurrency_amended :
    ((send_message_stream_trace true).indexOf Action.create_title_task <
      (send_message_stream_trace true).indexOf Action.stage1_collect) ∧
    ((send_message_stream_trace true).indexOf Action.stage3_synthesize <
      (send_message_stream_trace true).indexOf Action.await_title_task) ∧
    ((send_message_stream_trace true).indexOf Action.await_title_task <
      (send_message_stream_trace true).indexOf Action.add_assistant_message) ∧
    ((send_message_v1_trace true).indexOf Action.await_generate_title <
      (send_message_v1_trace true).indexOf Action.run_full_council) := by
  decide

/-- C9: each legacy endpoint under /api/conversations returns exactly the
result of the corresponding versioned endpoint under
/api/v1/conversations, for every storage state, collaborator outcome and
request. -/
theorem legacy_aliases_delegate (S1 S2 S3 M L G : Type) (st : Storage)
    (generate_conversation_title : String → String)
    (run_full_council : String → S1 × S2 × S3 × M)
    (deps : CouncilDeps S1 S2 L G S3) (storage : StorageDeps S1 S2 S3)
    (conversation_id content new_uuid : String) :
    list_conversations st = list_conversations_v1 st ∧
    create_conversation st new_uuid = create_conversation_v1 st new_uuid ∧
    get_conversation st conversation_id =
      get_conversation_v1 st conversation_id ∧
    send_message S1 S2 S3 M st generate_conversation_title run_full_council
        conversation_id content =
      send_message_v1 S1 S2 S3 M st generate_conversation_title
        run_full_council conversation_id content ∧
    send_message_stream S1 S2 L G S3 deps storage st conversation_id content =
      send_message_stream_v1 S1 S2 L G S3 deps storage st conversation_id
        content :=
  ⟨rfl, rfl, rfl, rfl, rfl⟩

/-! ## Claim about rank aggregation -/

/-- C8: aggregation tolerates bad submissions — an entirely unparseable
submission contributes nothing and leaves the aggregate ranking of the
remaining submissions unchanged, every submission's contribution adds up
submission by submission, and a submission none of whose labels maps to
model `m` contributes zero to `m`. -/
theorem aggregation_tolerance (label_to_model : List (Label × String))
    (subs : List RankingSubmission) (labels : List Label) (m : String)
    (hmiss : ∀ lab ∈ labels, lookupLabel label_to_model lab ≠ some m) :
    calculate_aggregate_rankings (none :: subs) label_to_model =
      calculate_aggregate_rankings subs label_to_model ∧
    totalScore label_to_model (some labels :: subs) m =
      submissionPoints label_to_model (some labels) m +
        totalScore label_to_model subs m ∧
    submissionPoints label_to_model (some labels) m = 0 := by
  refine ⟨?_, by simp [totalScore], ?_⟩
  · unfold calculate_aggregate_rankings
    have hsc : ∀ m', totalScore label_to_model (none :: subs) m' =
        totalScore label_to_model subs m' := by
      intro m'
      simp [totalScore, submissionPoints]
    simp [hsc]
  · unfold submissionPoints
    apply List.sum_eq_zero
    intro x hx
    rcases List.mem_map.mp hx with ⟨p, hp, rfl⟩
    obtain ⟨lab, i⟩ := p
    have hlab : lab ∈ labels := (List.of_mem_zip hp).1
    rw [if_neg (hmiss lab hlab)]

/-- Witness for C8: one valid submission plus one unparseable one, and a
partial submission whose only label maps to another model. -/
theorem aggregation_tolerance_witness :
    (∀ lab ∈ (["Response B"] : List Label),
      lookupLabel [("Response A", "openai/gpt-5.1"),
        ("Response B", "x-ai/grok-4")] lab ≠ some "openai/gpt-5.1") ∧
    (calculate_aggregate_rankings (none :: [some ["Response A"]])
        [("Response A", "openai/gpt-5.1"), ("Response B", "x-ai/grok-4")] =
      calculate_aggregate_rankings [some ["Response A"]]
        [("Response A", "openai/gpt-5.1"), ("Response B", "x-ai/grok-4")] ∧
    totalScore [("Response A", "openai/gpt-5.1"), ("Response B", "x-ai/grok-4")]
        (some ["Response B"] :: [some ["Response A"]]) "openai/gpt-5.1" =
      submissionPoints
        [("Response A", "openai/gpt-5.1"), ("Response B", "x-ai/grok-4")]
        (some ["Response B"]) "openai/gpt-5.1" +
      totalScore
        [("Response A", "openai/gpt-5.1"), ("Response B", "x-ai/grok-4")]
        [some ["Response A"]] "openai/gpt-5.1" ∧
    submissionPoints
        [("Response A", "openai/gpt-5.1"), ("Response B", "x-ai/grok-4")]
        (some ["Response B"]) "openai/gpt-5.1" = 0) :=
  ⟨by decide,
    aggregation_tolerance
      [("Response A", "openai/gpt-5.1"), ("Response B", "x-ai/grok-4")]
      [some ["Response A"]] ["Response B"] "openai/gpt-5.1" (by decide)⟩

end LLMCouncil
